import Mathlib

/-!
Verification development for the real-time streaming audio session engine of
the Aurora repository (`services/streaming_speech_service.py`,
`logic/audio_processing.py`, `logic/session_manager.py`,
`logic/session_models.py`).

The Python code is shallowly embedded: pure computations become Lean
functions, mutation becomes explicit state passing, and paths on which the
Python code raises an uncaught exception are modelled with `Except` or an
explicit `raised` constructor.  JSON dictionaries coming from the recognizer
are modelled as structures whose `Option` fields record key presence
(`none` = key absent).  Word payload dictionaries are carried through the
consolidation unchanged and never inspected, so they are modelled as opaque
atoms (`Nat` identifiers).
-/

namespace Aurora

/-- The set of characters removed by Python's `str.strip()` with no
arguments (ASCII whitespace; the exotic unicode cases never arise in
recognizer display text). -/
def pyWhitespace (c : Char) : Bool :=
  c == ' ' || c == '\t' || c == '\n' || c == '\r' || c == '\x0b' || c == '\x0c'

/-- Python `str.strip()`: drop leading and trailing whitespace. -/
def pyStrip (s : String) : String :=
  String.mk (((s.toList.dropWhile pyWhitespace).reverse.dropWhile pyWhitespace).reverse)

/-- Opaque word payload: `_consolidate_results` moves the per-word score
dictionaries around without ever reading their contents, so each one is
modelled as an atom. -/
abbrev Word := Nat

/-- One entry of a fragment's `"NBest"` list.  `none` means the key is
absent from the underlying JSON dictionary.  The `assessment` field records
only the presence of the `"PronunciationAssessment"` sub-object, which the
consolidation never reads or edits.  Numeric payloads (`Confidence`) are
only carried through, so `Int` stands in for the JSON number. -/
structure NBestEntry where
  confidence : Option Int
  display : Option String
  lexical : Option String
  itn : Option String
  maskedITN : Option String
  words : Option (List Word)
  assessment : Option Unit
deriving DecidableEq, Repr

/-- One recognition fragment as stored in
`session_transcript_fragments` (a parsed Azure JSON dictionary).  `none`
means the key is absent. -/
structure Fragment where
  id : Option String
  recognitionStatus : Option String
  displayText : Option String
  offset : Option Int
  duration : Option Int
  nbest : Option (List NBestEntry)
deriving DecidableEq, Repr

/-- The validated `AzurePronunciationReport` (logic/audio_models.py): the
pydantic model requires `Id`, `RecognitionStatus`, `DisplayText`, `Offset`,
`Duration` and `NBest` at the top level. -/
structure Report where
  id : String
  recognitionStatus : String
  displayText : String
  offset : Int
  duration : Int
  nbest : List NBestEntry
deriving DecidableEq, Repr

/-- Pydantic validation of one `NBestResult` (audio_models.py): requires
`Confidence`, `Display`, `PronunciationAssessment` and `Words`.  Extra keys
(`Lexical`, `ITN`, `MaskedITN`) are ignored by the model. -/
def nbestEntryValid (e : NBestEntry) : Bool :=
  e.confidence.isSome && e.display.isSome && e.assessment.isSome && e.words.isSome

/-- Pydantic validation `AzurePronunciationReport.model_validate_json`:
all required top-level keys present, `RecognitionStatus == "Success"`
(field validator), `NBest` non-empty (field validator), and every `NBest`
entry well-formed. -/
def validateReport (f : Fragment) : Option Report :=
  match f.id, f.recognitionStatus, f.displayText, f.offset, f.duration, f.nbest with
  | some i, some status, some dt, some off, some dur, some nb =>
      if status == "Success" && !nb.isEmpty && nb.all nbestEntryValid then
        some { id := i, recognitionStatus := status, displayText := dt,
               offset := off, duration := dur, nbest := nb }
      else none
  | _, _, _, _, _, _ => none

/-- The `complete_utterance_parts` accumulated by the consolidation loop:
for each fragment with a `"DisplayText"` key, its stripped display text. -/
def consolidationParts (fragments : List Fragment) : List String :=
  fragments.filterMap (fun f => f.displayText.map pyStrip)

/-- The `all_words` accumulated by the consolidation loop: for each
fragment whose `"NBest"` key is present and non-empty, the first entry's
`"Words"` list (defaulting to empty when the key is absent). -/
def consolidationWords (fragments : List Fragment) : List Word :=
  fragments.foldr
    (fun f acc =>
      (match f.nbest with
       | some (e :: _) => e.words.getD []
       | _ => []) ++ acc) []

/-- The `total_duration` accumulated by the consolidation loop:
`fragment.get("Duration", 0)` summed over all fragments. -/
def consolidationDuration (fragments : List Fragment) : Int :=
  (fragments.map (fun f => f.duration.getD 0)).sum

/-- Model of `StreamingAudioService._consolidate_results`, as a function from the
fragment list to (the optional validated report, the fragment list as it
stands after the call).  The second component records the heap effect of
the Python code: `final_fragment = fragments[0].copy()` is a *shallow* dict
copy, so the template shares its nested `"NBest"` list (and the dicts
inside it) with `fragments[0]`; the in-place update of `NBest[0]` is
therefore visible through the session's stored fragment, while the
top-level `DisplayText`/`Duration` writes affect only the copy. -/
def consolidate_results (fragments : List Fragment) : Option Report × List Fragment :=
  match fragments with
  | [] => (none, [])
  | f0 :: rest =>
      let transcript := String.intercalate " " (consolidationParts (f0 :: rest))
      let allWords := consolidationWords (f0 :: rest)
      let totalDuration := consolidationDuration (f0 :: rest)
      let newNBest : Option (List NBestEntry) :=
        match f0.nbest with
        | some (e :: es) =>
            some ({ e with words := some allWords, lexical := some transcript,
                           display := some transcript, itn := some transcript,
                           maskedITN := some transcript } :: es)
        | other => other
      let finalFragment : Fragment :=
        { f0 with displayText := some transcript, duration := some totalDuration,
                  nbest := newNBest }
      (validateReport finalFragment, { f0 with nbest := newNBest } :: rest)

/-- The word list carried by a validated report: its primary
(`NBest[0]`) entry's words. -/
def reportWords (r : Report) : List Word :=
  match r.nbest with
  | e :: _ => e.words.getD []
  | [] => []

/-! Session state and recording lifecycle.

`StreamingState` (logic/session_models.py) with the fields the lifecycle
operations touch.  Azure SDK handles are modelled by presence flags
(`recognizerSet` / `pushStreamSet` mirror `recognizer is not None` /
`push_stream is not None`); the SDK calls themselves are recorded in an
explicit trace of resource operations, and are modelled as non-raising
(the recognizer stop/disconnect/close calls in the cleanup path). -/

/-- A call into the Azure SDK or the thread machinery, recorded in
order.  `disconnectCallbacks` stands for the four `disconnect_all` calls
of `cleanup_streaming_resources`; `setupAttempt` marks one execution of
`setup_azure_recognizer`; `sleepRetry` is the `time.sleep(1)` between
start attempts. -/
inductive ResOp where
  | flushWrite (samples : List Int)
  | stopRecognition
  | disconnectCallbacks
  | closePushStream
  | createRecognizer
  | startRecognition
  | spawnConsumer
  | setupAttempt
  | sleepRetry
deriving DecidableEq, Repr

/-- The per-session streaming state (`StreamingState` dataclass), restricted
to the fields read or written by `start_recording`, `stop_recording`,
`_flush_audio_buffer` and `cleanup_streaming_resources`.  `audioQueue`
holds the frames awaiting the consumer; `consumerThreads` counts consumer
threads spawned by `_start_consumer_thread`. -/
structure StreamState where
  isRecording : Bool
  isActive : Bool
  recognizerSet : Bool
  pushStreamSet : Bool
  fragments : List Fragment
  currentUtteranceBuffer : String
  audioBuffer : List Int
  audioQueue : List (List Int)
  retryCount : Nat
  maxRetries : Nat
  lastError : Option String
  audioChunksProcessed : Nat
  consumerThreads : Nat
deriving DecidableEq, Repr

/-- Model of `StreamingSessionState.cleanup_streaming_resources`
(logic/session_models.py, lines 69-102): stop the recognizer and
disconnect its callbacks when a recognizer handle is held, close the push
stream when one is held.  No state field is written — the
`self.streaming = StreamingState()` reset at the end of the method is
commented out in the source, so the handles stay referenced. -/
def cleanup_streaming_resources (s : StreamState) : StreamState × List ResOp :=
  (s, (if s.recognizerSet then [ResOp.stopRecognition, ResOp.disconnectCallbacks] else [])
      ++ (if s.pushStreamSet then [ResOp.closePushStream] else []))

/-- Model of `StreamingAudioService._flush_audio_buffer`: when the audio buffer is
non-empty and a push stream is held, write the whole buffer to the push
stream and clear it. -/
def flush_audio_buffer (s : StreamState) : StreamState × List ResOp :=
  if !s.audioBuffer.isEmpty && s.pushStreamSet then
    ({ s with audioBuffer := [] }, [ResOp.flushWrite s.audioBuffer])
  else (s, [])

/-- The `(success, message, report)` triple returned by `stop_recording`. -/
structure StopResult where
  success : Bool
  message : String
  report : Option Report
deriving DecidableEq, Repr

/-- Model of `StreamingAudioService.stop_recording` (lines 202-258).  When the
session is not recording it returns the `"Not currently recording"`
failure from inside the `try` — but the `finally` block still runs, so
`cleanup_streaming_resources` is re-executed on whatever handles the
session retains, and `is_active` is forced to `False`.  When recording, it
flushes the audio buffer, stops the recognizer, clears `is_recording`,
consolidates the fragments (observing the consolidation's mutation of the
stored fragment list), and falls back to the partial-utterance buffer when
consolidation yields no report; the same `finally` block then runs. -/
def stop_recording (s : StreamState) : StopResult × StreamState × List ResOp :=
  if !s.isRecording then
    let (s1, ops) := cleanup_streaming_resources s
    (⟨false, "Not currently recording", none⟩, { s1 with isActive := false }, ops)
  else
    let (s1, ops1) := flush_audio_buffer s
    let ops2 := if s1.recognizerSet then [ResOp.stopRecognition] else []
    let s2 := { s1 with isRecording := false }
    let (report, fragmentsAfter) := consolidate_results s2.fragments
    let s3 := { s2 with fragments := fragmentsAfter }
    let result : StopResult :=
      match report with
      | some r => ⟨true, r.displayText, some r⟩
      | none =>
          ⟨false,
           if s3.currentUtteranceBuffer == "" then "(No speech detected)"
           else s3.currentUtteranceBuffer,
           none⟩
    let (s4, ops3) := cleanup_streaming_resources s3
    (result, { s4 with isActive := false }, ops1 ++ ops2 ++ ops3)

/-- The environment's verdict on one start attempt.
`ok`: `setup_azure_recognizer` returns `True` and
`start_continuous_recognition` succeeds.
`returnsFalse msg`: `setup_azure_recognizer` catches its internal failure,
records `msg` as `last_error` and returns `False` (no exception reaches
`start_recording`).
`raises msg`: setup returns `True` (handles stored) but
`start_continuous_recognition` raises `msg`, caught by `start_recording`'s
`except` block. -/
inductive SetupOutcome where
  | ok
  | returnsFalse (msg : String)
  | raises (msg : String)
deriving DecidableEq, Repr

/-- The state updates of `start_recording`'s success path (lines 157-178):
set the flags, reset the utterance-scoped data, replace the audio queue,
and spawn a consumer thread. -/
def startSuccessUpdate (s : StreamState) : StreamState :=
  { s with isRecording := true, isActive := true,
           recognizerSet := true, pushStreamSet := true,
           audioChunksProcessed := 0,
           fragments := [], currentUtteranceBuffer := "",
           audioBuffer := [], lastError := none,
           audioQueue := [],
           consumerThreads := s.consumerThreads + 1 }

/-- The failure message built after the retry loop ends
(`"Failed to start recording after {max_retries + 1} attempts"`,
suffixed with the last error when one was recorded). -/
def startFailureMessage (s : StreamState) : String :=
  "Failed to start recording after " ++ toString (s.maxRetries + 1) ++ " attempts"
  ++ (match s.lastError with
      | some e => ": " ++ e
      | none => "")

/-- The retry loop of `start_recording` (`for attempt in
range(max_retries + 1)`), driven by `env attempt`.  `remaining` is the
number of loop iterations left.  A `returnsFalse` outcome just falls
through to the next iteration — `retry_count` is *not* incremented and no
delay is taken, because no exception reaches the `except` block; a
`raises` outcome increments `retry_count`, records `last_error` and sleeps
when further attempts remain. -/
def startAttemptLoop (env : Nat → SetupOutcome) :
    Nat → Nat → StreamState → List ResOp → ((Bool × String) × StreamState × List ResOp)
  | _, 0, s, ops => ((false, startFailureMessage s), s, ops)
  | attempt, remaining + 1, s, ops =>
      match env attempt with
      | SetupOutcome.ok =>
          ((true, "Recording started..."), startSuccessUpdate s,
           ops ++ [ResOp.setupAttempt, ResOp.createRecognizer,
                   ResOp.startRecognition, ResOp.spawnConsumer])
      | SetupOutcome.returnsFalse msg =>
          startAttemptLoop env (attempt + 1) remaining
            { s with lastError := some msg } (ops ++ [ResOp.setupAttempt])
      | SetupOutcome.raises msg =>
          startAttemptLoop env (attempt + 1) remaining
            { s with recognizerSet := true, pushStreamSet := true,
                     retryCount := s.retryCount + 1, lastError := some msg }
            (ops ++ [ResOp.setupAttempt, ResOp.createRecognizer]
                 ++ (if remaining == 0 then [] else [ResOp.sleepRetry]))

/-- Model of `StreamingAudioService.start_recording` (lines 143-200): reset
`retry_count` to 0, then run up to `max_retries + 1` setup attempts.
There is no already-recording guard anywhere in the method. -/
def start_recording (env : Nat → SetupOutcome) (s : StreamState) :
    (Bool × String) × StreamState × List ResOp :=
  startAttemptLoop env 0 (s.maxRetries + 1) { s with retryCount := 0 } []

/-! Frame ingest (`AuroraStreamHandler.receive`, logic/audio_processing.py).

Sample amplitudes are modelled as rationals.  `scipy.signal.resample` is an
opaque signal transformation whose only property used by the code is that
it returns exactly the requested number of samples; it is passed in as a
parameter `resampleImpl`.  The session-manager lookup is abstracted to a
`hasActiveSession` flag and the current `queueSize` of the selected
session's queue (the queue itself is an unbounded `asyncio.Queue`, so
`put_nowait` cannot raise `QueueFull`). -/

/-- What one `receive` call does with the inbound frame. -/
inductive RecvResult where
  | noActiveSession
  | droppedQueuePressure
  | droppedSilence
  | droppedDegenerateResample
  | enqueued (samples : List ℚ)
  | raised (msg : String)
deriving DecidableEq, Repr

/-- Peak absolute amplitude `np.max(np.abs(audio_data))` of a non-empty
frame (on an empty frame `np.max` raises; callers model that case
separately). -/
def peakAmp (xs : List ℚ) : ℚ :=
  (xs.map (fun x => |x|)).foldr max 0

/-- Model of `has_speech` (logic/audio_processing.py, lines 10-12): strictly above
the threshold.  Total model of the non-raising (non-empty) case. -/
def has_speech (xs : List ℚ) (threshold : ℚ) : Bool :=
  threshold < peakAmp xs

/-- The `target_length = int(len(audio_data) * 16000 / sr)` computation:
Python's `int()` truncates toward zero, matching `Int.tdiv`. -/
def resampleTargetLength (frameLen : Nat) (sr : Int) : Int :=
  Int.tdiv ((frameLen : Int) * 16000) sr

/-- Model of `AuroraStreamHandler.receive` for a frame `(sr, samples)`.  The
queue-pressure check and the enqueue are wrapped in `try/except` in the
source and cannot propagate; the silence gate (`np.max` on a possibly
empty array) and the resampling arithmetic (division by `sr`) are *not*
wrapped, so a zero-length frame or a zero sample rate raises out of
`receive`.  With no active recording session the frame is ignored before
any of that code runs. -/
def receive (resampleImpl : List ℚ → Nat → List ℚ) (hasActiveSession : Bool)
    (queueSize : Nat) (sr : Int) (samples : List ℚ) : RecvResult :=
  if !hasActiveSession then RecvResult.noActiveSession
  else if 45 < queueSize then RecvResult.droppedQueuePressure
  else if samples.isEmpty then
    RecvResult.raised "ValueError: zero-size array to reduction operation maximum"
  else if !has_speech samples (1/100) then RecvResult.droppedSilence
  else if sr != 16000 then
    if sr == 0 then RecvResult.raised "ZeroDivisionError: division by zero"
    else
      let targetLength := resampleTargetLength samples.length sr
      if 0 < targetLength then RecvResult.enqueued (resampleImpl samples targetLength.toNat)
      else RecvResult.droppedDegenerateResample
  else RecvResult.enqueued samples

/-! The consumer loop (`StreamingAudioService._consume_audio_loop`).

The loop body is sequential; the concurrent environment (producer frames
arriving, the wall clock, an external `stop_recording` clearing
`is_recording`) is abstracted into one `Tick` per loop iteration.  The
`accepted` and `drains` fields of `ConsumerState` are instrumentation:
`accepted` records every sample absorbed from the producer in arrival
order, `drains` counts emergency-drain events. -/

/-- Consumer-side state: the session's queue/batch/buffer plus the samples
already written to the recognizer push stream, in write order. -/
structure ConsumerState where
  queue : List (List Int)
  batch : List (List Int)
  buffer : List Int
  written : List Int
  isRecording : Bool
  chunksProcessed : Nat
  drains : Nat
  accepted : List Int
deriving DecidableEq, Repr

/-- The window size `target_samples = int(16000 * 0.5)` — 8000 samples per window. -/
def targetSamples : Nat := 8000

/-- The batching cap `max_batch_size = 8`. -/
def maxBatchSize : Nat := 8

/-- Model of `_process_audio_buffer_optimized`: when forced and the buffer is
non-empty, write the whole buffer; otherwise, when at least one full
window is buffered, write exactly one window and keep the rest. -/
def process_audio_buffer_optimized (s : ConsumerState) (forceFlush : Bool) : ConsumerState :=
  if targetSamples ≤ s.buffer.length || (forceFlush && !s.buffer.isEmpty) then
    if forceFlush then
      { s with written := s.written ++ s.buffer, buffer := [],
               chunksProcessed := s.chunksProcessed + 1 }
    else
      { s with written := s.written ++ s.buffer.take targetSamples,
               buffer := s.buffer.drop targetSamples,
               chunksProcessed := s.chunksProcessed + 1 }
  else s

/-- The environment of one loop iteration: `arrivals` are the frames the
producer enqueues before this iteration's checks run; `timeLimit` is the
verdict of the `max_recording_seconds` check; `timeElapsed` is the verdict
of `(current_time - last_process_time) > batch_timeout`; `stopped` records
an external `stop_recording` clearing `is_recording` during this
iteration (applied at the end of the body — one admissible
interleaving). -/
structure Tick where
  arrivals : List (List Int)
  timeLimit : Bool
  timeElapsed : Bool
  stopped : Bool
deriving DecidableEq, Repr

/-- Apply the external stop flag of the current tick. -/
def applyStop (s : ConsumerState) (t : Tick) : ConsumerState :=
  if t.stopped then { s with isRecording := false } else s

/-- The emergency queue-drain (`queue_size > 20`): pull
`min(queue_size - 10, 15)` frames off the queue front, append their
samples to the audio buffer and force-flush immediately, bypassing the
batch buffer.  Counted in `drains`. -/
def consumeEmergencyDrain (s : ConsumerState) : ConsumerState :=
  let drainCount := min (s.queue.length - 10) 15
  let emergency := (s.queue.take drainCount).flatten
  let s2 : ConsumerState :=
    { s with queue := s.queue.drop drainCount, drains := s.drains + 1 }
  if emergency.isEmpty then s2
  else process_audio_buffer_optimized { s2 with buffer := s2.buffer ++ emergency } true

/-- The `asyncio.TimeoutError` branch (queue empty at the wait): when a
batch is pending and the session still records, move it into the audio
buffer and process one window. -/
def consumeTimeoutFlush (s : ConsumerState) : ConsumerState :=
  if !s.batch.isEmpty && s.isRecording then
    process_audio_buffer_optimized
      { s with buffer := s.buffer ++ s.batch.flatten, batch := [] } false
  else s

/-- The dequeue branch: append the dequeued frame to the batch, then
process the batch when it is full, the pre-dequeue queue size exceeded 5,
or the batch timeout elapsed — and the session still records. -/
def consumeDequeue (s : ConsumerState) (t : Tick) (f : List Int)
    (rest : List (List Int)) (queueSize : Nat) : ConsumerState :=
  let s2 : ConsumerState := { s with queue := rest, batch := s.batch ++ [f] }
  let shouldProcess := decide (maxBatchSize ≤ s2.batch.length)
                       || decide (5 < queueSize) || t.timeElapsed
  if shouldProcess && s2.isRecording then
    process_audio_buffer_optimized
      { s2 with buffer := s2.buffer ++ s2.batch.flatten, batch := [] } false
  else s2

/-- One iteration of the consumer loop body (after the `while` guard has
passed).  Mirrors the source order: absorb producer arrivals, time-limit
check (break by clearing `is_recording`), queue-pressure check with
emergency drain (`continue`), then either the `TimeoutError` branch (queue
empty: flush any pending batch) or a dequeue followed by the
`should_process` batching decision.  `queue_size` is read *before* the
dequeue, as in the source. -/
def consumeIter (s0 : ConsumerState) (t : Tick) : ConsumerState :=
  let s1 : ConsumerState :=
    { s0 with queue := s0.queue ++ t.arrivals,
              accepted := s0.accepted ++ t.arrivals.flatten }
  if t.timeLimit then { s1 with isRecording := false }
  else if 20 < s1.queue.length then applyStop (consumeEmergencyDrain s1) t
  else
    match s1.queue with
    | [] => applyStop (consumeTimeoutFlush s1) t
    | f :: rest => applyStop (consumeDequeue s1 t f rest s1.queue.length) t

/-- The `while session_state.streaming.is_active and is_recording` loop,
run against a finite schedule of ticks (the run is observed for
`ticks.length` iterations; the guard exits earlier when `is_recording`
goes false). -/
def consumeLoop : ConsumerState → List Tick → ConsumerState
  | s, [] => s
  | s, t :: ts => if s.isRecording then consumeLoop (consumeIter s t) ts else s

/-- The loop's `finally` block: only when `batch_buffer` is non-empty is
the final batch merged into the audio buffer and force-flushed; with an
empty batch buffer nothing at all is flushed. -/
def consumeFinally (s : ConsumerState) : ConsumerState :=
  if s.batch.isEmpty then s
  else process_audio_buffer_optimized
         { s with buffer := s.buffer ++ s.batch.flatten, batch := [] } true

/-- A full `_consume_audio_loop` run: the loop followed by its `finally`
block. -/
def consume_audio_loop (s : ConsumerState) (ticks : List Tick) : ConsumerState :=
  consumeFinally (consumeLoop s ticks)

/-- Every sample currently owned by the consumer pipeline, oldest first:
already written, then buffered, then batched, then still queued. -/
def pipelineTrace (s : ConsumerState) : List Int :=
  s.written ++ s.buffer ++ s.batch.flatten ++ s.queue.flatten

/-! Session registry eviction (`SessionManager.cleanup_old_sessions`).

`logic/session_manager.py`, lines 57-74.  The selection loop reads
`session.created_at`; the `StreamingSessionState` dataclass
(logic/session_models.py, lines 57-67) declares exactly the fields
`chat_history` and `streaming` — there is no `created_at` field and no
`__getattr__` hook, so that read raises `AttributeError` on the first
stored session. -/

/-- A stored session, with the two fields the dataclass actually has. -/
structure SessionModel where
  chatHistoryLen : Nat
  streaming : StreamState
deriving DecidableEq, Repr

/-- An uncaught Python exception. -/
inductive PyError where
  | attributeError (attr : String)
deriving DecidableEq, Repr

/-- Python attribute read `session.created_at` on a
`StreamingSessionState` instance: the attribute does not exist, so the
read raises `AttributeError` whatever the session contains. -/
def sessionCreatedAt (_s : SessionModel) : Except PyError Int :=
  Except.error (PyError.attributeError "created_at")

/-- The selection loop of `cleanup_old_sessions`: walk the registry in
order, collecting the hashes of sessions older than `maxAge`.  Raises as
soon as a `created_at` read raises. -/
def collectOldSessions (currentTime maxAge : Int) :
    List (String × SessionModel) → Except PyError (List String)
  | [] => Except.ok []
  | (h, s) :: rest => do
      let c ← sessionCreatedAt s
      let tail ← collectOldSessions currentTime maxAge rest
      pure ((if maxAge < currentTime - c then [h] else []) ++ tail)

/-- Model of `SessionManager.cleanup_old_sessions`: select the sessions to remove,
then clean each one's streaming resources and delete it from the registry.
The selection loop raising propagates out of the method (there is no
`try/except` around it). -/
def cleanup_old_sessions (registry : List (String × SessionModel))
    (currentTime maxAge : Int) :
    Except PyError (List (String × SessionModel) × List ResOp) := do
  let toRemove ← collectOldSessions currentTime maxAge registry
  let ops := (registry.filter (fun p => toRemove.contains p.1)).foldr
    (fun p acc => (cleanup_streaming_resources p.2.streaming).2 ++ acc) []
  pure (registry.filter (fun p => !toRemove.contains p.1), ops)

/-! Concrete instances used to evaluate the model on specific inputs. -/

/-- A schema-valid recognizer fragment whose display text carries a
leading space. -/
def cFrag : Fragment :=
  { id := some "a", recognitionStatus := some "Success", displayText := some " hi",
    offset := some 0, duration := some 5,
    nbest := some [{ confidence := some 1, display := some "x", lexical := some "x",
                     itn := some "x", maskedITN := some "x", words := some [1, 2],
                     assessment := some () }] }

/-- A session in the middle of a recording: flags set, handles held, one
consumer thread running. -/
def sRec : StreamState :=
  { isRecording := true, isActive := true, recognizerSet := true, pushStreamSet := true,
    fragments := [], currentUtteranceBuffer := "", audioBuffer := [],
    audioQueue := [], retryCount := 0, maxRetries := 3, lastError := none,
    audioChunksProcessed := 0, consumerThreads := 1 }

/-- A freshly created idle session (no handles, not recording). -/
def sIdle : StreamState :=
  { sRec with isRecording := false, isActive := false,
              recognizerSet := false, pushStreamSet := false, consumerThreads := 0 }

/-- A recording session that has already accumulated a fragment. -/
def sRecWithFragment : StreamState := { sRec with fragments := [cFrag] }

/-- A stand-in for `scipy.signal.resample`: returns the requested number
of samples (the only property of the resampler the handler relies on). -/
def rsConst : List ℚ → Nat → List ℚ := fun _ n => List.replicate n (0 : ℚ)

/-- A consumer starting fresh: empty queue, buffers and trace. -/
def c3s0 : ConsumerState :=
  { queue := [], batch := [], buffer := [], written := [], isRecording := true,
    chunksProcessed := 0, drains := 0, accepted := [] }

/-- One loop iteration in which a 3-sample frame arrives and is batched
and processed (the batch timeout has elapsed), after which an external
stop ends the recording. -/
def c3tick : Tick :=
  { arrivals := [[1, 2, 3]], timeLimit := false, timeElapsed := true, stopped := true }

/-- A registry entry holding a live session. -/
def sessM : SessionModel := { chatHistoryLen := 0, streaming := sRec }

/-- The report produced by consolidating `[cFrag]`. -/
def cFragReport : Report :=
  { id := "a", recognitionStatus := "Success", displayText := "hi", offset := 0,
    duration := 5,
    nbest := [{ confidence := some 1, display := some "hi", lexical := some "hi",
                itn := some "hi", maskedITN := some "hi", words := some [1, 2],
                assessment := some () }] }

/-! Helper lemmas. -/

/-- Inversion of pydantic validation: a fragment that validates has every
required key, and the report's fields are those key's values; the `NBest`
list is moreover non-empty. -/
theorem validateReport_eq_some {f : Fragment} {r : Report}
    (h : validateReport f = some r) :
    f.id = some r.id ∧ f.recognitionStatus = some r.recognitionStatus ∧
    f.displayText = some r.displayText ∧ f.offset = some r.offset ∧
    f.duration = some r.duration ∧ f.nbest = some r.nbest ∧ r.nbest ≠ [] := by
  unfold validateReport at h
  split at h
  case _ i status dt off dur nb hid hst hdt hoff hdur hnb =>
    split at h
    case isTrue hcond =>
      cases h
      simp only [Bool.and_eq_true, beq_iff_eq, Bool.not_eq_true'] at hcond
      refine ⟨hid, hst, hdt, hoff, hdur, hnb, ?_⟩
      intro hemp
      have hnb0 : nb = [] := hemp
      rw [hnb0] at hcond
      simp at hcond
    case isFalse _ => cases h
  case _ => cases h

/-- C1, counterexample.  The code joins *stripped* display texts: on a
fragment whose display text is `" hi"` the produced transcript is `"hi"`,
not the space-join `" hi"` of the raw display texts that the claim
describes. -/
theorem c1_strip_counterexample :
    (consolidate_results [cFrag]).1 = some cFragReport ∧
    [cFrag].filterMap Fragment.displayText = [" hi"] ∧
    cFragReport.displayText
      ≠ String.intercalate " " ([cFrag].filterMap Fragment.displayText) := by
  decide

/-- C1, amended.  For every non-empty fragment list, whenever
consolidation produces a (validated) report, that report's transcript is
the *whitespace-stripped* display texts of the fragments that carry one,
joined in fragment order by a single space; its duration is the sum of the
fragments' reported durations (`0` for a fragment without one); and its
word list is the in-order concatenation of the fragments' per-word arrays.
Determinism in the fragments is immediate: `consolidate_results` is a pure
function of the fragment list. -/
theorem c1_consolidation_amended (fragments : List Fragment) (r : Report)
    (hne : fragments ≠ []) (h : (consolidate_results fragments).1 = some r) :
    r.displayText = String.intercalate " " (consolidationParts fragments) ∧
    r.duration = consolidationDuration fragments ∧
    reportWords r = consolidationWords fragments := by
  cases fragments with
  | nil => exact absurd rfl hne
  | cons f0 rest =>
    simp only [consolidate_results] at h
    obtain ⟨hid, hst, hdt, hoff, hdur, hnb, hnemp⟩ := validateReport_eq_some h
    have hdt2 : some (String.intercalate " " (consolidationParts (f0 :: rest)))
        = some r.displayText := hdt
    have hdur2 : some (consolidationDuration (f0 :: rest)) = some r.duration := hdur
    refine ⟨(Option.some.inj hdt2).symm, (Option.some.inj hdur2).symm, ?_⟩
    rcases hfn : f0.nbest with _ | nbl
    · rw [hfn] at hnb
      simp at hnb
    · cases nbl with
      | nil =>
        rw [hfn] at hnb
        simp at hnb
        exact absurd hnb hnemp
      | cons e es =>
        rw [hfn] at hnb
        simp only [Option.some.injEq] at hnb
        simp [reportWords, ← hnb]

/-- C1, witness: the amended theorem evaluated at the one-fragment list
`[cFrag]`. -/
theorem c1_consolidation_amended_witness :
    cFragReport.displayText = String.intercalate " " (consolidationParts [cFrag]) ∧
    cFragReport.duration = consolidationDuration [cFrag] ∧
    reportWords cFragReport = consolidationWords [cFrag] :=
  c1_consolidation_amended [cFrag] cFragReport (by decide) (by decide)

/-- C7, counterexample.  Consolidation is not free of effects on the
stored fragments: the shallow template copy shares the nested `NBest`
structure with the first fragment, so the first fragment's
`NBest[0].Lexical` (among others) is overwritten — here from `"x"` to
`"hi"`. -/
theorem c7_mutation_counterexample :
    (consolidate_results [cFrag]).2 ≠ [cFrag] ∧
    (consolidate_results [cFrag]).2.map
        (fun f => f.nbest.map (fun l => l.map NBestEntry.lexical))
      = [some [some "hi"]] ∧
    [cFrag].map (fun f => f.nbest.map (fun l => l.map NBestEntry.lexical))
      = [some [some "x"]] := by
  decide

/-- C7, amended.  Consolidation leaves every fragment except the first
unchanged, and on the first fragment changes at most the `NBest` value:
top-level keys (`DisplayText`, `Duration`, ...) keep their values.  When
the first fragment's `NBest` is absent or empty it too is unchanged; when
it is non-empty, exactly the first entry's `Words`, `Lexical`, `Display`,
`ITN` and `MaskedITN` keys are overwritten with the consolidated values
(the later entries are untouched). -/
theorem c7_consolidation_effects_amended (f0 : Fragment) (rest : List Fragment) :
    ∃ nb', (consolidate_results (f0 :: rest)).2 = { f0 with nbest := nb' } :: rest ∧
      (f0.nbest = none → nb' = none) ∧
      (f0.nbest = some [] → nb' = some []) ∧
      (∀ e es, f0.nbest = some (e :: es) →
        nb' = some ({ e with
          words := some (consolidationWords (f0 :: rest)),
          lexical := some (String.intercalate " " (consolidationParts (f0 :: rest))),
          display := some (String.intercalate " " (consolidationParts (f0 :: rest))),
          itn := some (String.intercalate " " (consolidationParts (f0 :: rest))),
          maskedITN := some (String.intercalate " " (consolidationParts (f0 :: rest)))
        } :: es)) := by
  rcases hfn : f0.nbest with _ | nbl
  · refine ⟨none, by simp [consolidate_results, hfn], fun _ => rfl, ?_, ?_⟩
    · intro hh
      simp at hh
    · intro e es hh
      simp at hh
  · cases nbl with
    | nil =>
      refine ⟨some [], by simp [consolidate_results, hfn], ?_, fun _ => rfl, ?_⟩
      · intro hh
        simp at hh
      · intro e es hh
        simp at hh
    | cons e es =>
      refine ⟨some ({ e with
          words := some (consolidationWords (f0 :: rest)),
          lexical := some (String.intercalate " " (consolidationParts (f0 :: rest))),
          display := some (String.intercalate " " (consolidationParts (f0 :: rest))),
          itn := some (String.intercalate " " (consolidationParts (f0 :: rest))),
          maskedITN := some (String.intercalate " " (consolidationParts (f0 :: rest)))
        } :: es), by simp [consolidate_results, hfn], ?_, ?_, ?_⟩
      · intro hh
        simp at hh
      · intro hh
        simp at hh
      · intro e' es' hh
        simp only [Option.some.injEq, List.cons.injEq] at hh
        obtain ⟨he, hes⟩ := hh
        subst he
        subst hes
        rfl

/-- Flushing the audio buffer does not change the handle-presence flags,
the fragment list or the partial-utterance buffer. -/
theorem flush_audio_buffer_fields (s : StreamState) :
    (flush_audio_buffer s).1.recognizerSet = s.recognizerSet ∧
    (flush_audio_buffer s).1.pushStreamSet = s.pushStreamSet ∧
    (flush_audio_buffer s).1.fragments = s.fragments ∧
    (flush_audio_buffer s).1.currentUtteranceBuffer = s.currentUtteranceBuffer := by
  unfold flush_audio_buffer
  split <;> exact ⟨rfl, rfl, rfl, rfl⟩

/-- The success flag of an exhausted retry loop is `false`, so a
successful run must have consumed an `ok` outcome, and its trace then
contains the recognizer creation of that attempt. -/
theorem startAttemptLoop_success_mem (env : Nat → SetupOutcome) :
    ∀ (remaining attempt : Nat) (s : StreamState) (ops : List ResOp),
      (startAttemptLoop env attempt remaining s ops).1.1 = true →
      ResOp.createRecognizer ∈ (startAttemptLoop env attempt remaining s ops).2.2 := by
  intro remaining
  induction remaining with
  | zero =>
    intro attempt s ops h
    simp [startAttemptLoop] at h
  | succ n ih =>
    intro attempt s ops h
    cases henv : env attempt with
    | ok =>
      simp [startAttemptLoop, henv]
    | returnsFalse msg =>
      simp only [startAttemptLoop, henv] at h ⊢
      exact ih (attempt + 1) _ _ h
    | raises msg =>
      simp only [startAttemptLoop, henv] at h ⊢
      exact ih (attempt + 1) _ _ h

/-- A retry loop in which every attempt's setup returns `False`: the run
fails, the final state differs from the initial one only in `lastError`
(in particular `retryCount` is untouched), and the trace grows by exactly
one setup attempt per iteration — no sleeps, no handle creation. -/
theorem startAttemptLoop_returnsFalse (msg : String) :
    ∀ (remaining attempt : Nat) (s : StreamState) (ops : List ResOp), 0 < remaining →
      startAttemptLoop (fun _ => SetupOutcome.returnsFalse msg) attempt remaining s ops
        = ((false, startFailureMessage { s with lastError := some msg }),
           { s with lastError := some msg },
           ops ++ List.replicate remaining ResOp.setupAttempt) := by
  intro remaining
  induction remaining with
  | zero => intro _ _ _ h; omega
  | succ n ih =>
    intro attempt s ops _
    rcases Nat.eq_zero_or_pos n with hn | hn
    · subst hn
      simp [startAttemptLoop]
    · simp only [startAttemptLoop]
      rw [ih (attempt + 1) { s with lastError := some msg } (ops ++ [ResOp.setupAttempt]) hn]
      simp [List.replicate_succ, List.append_assoc]

/-- A retry loop in which every attempt raises after setup succeeded: the
run fails and `retryCount` grows by one per iteration. -/
theorem startAttemptLoop_raises (msg : String) :
    ∀ (remaining attempt : Nat) (s : StreamState) (ops : List ResOp), 0 < remaining →
      (startAttemptLoop (fun _ => SetupOutcome.raises msg) attempt remaining s ops).1.1
        = false ∧
      (startAttemptLoop (fun _ => SetupOutcome.raises msg) attempt remaining s ops).2.1.retryCount
        = s.retryCount + remaining ∧
      (startAttemptLoop (fun _ => SetupOutcome.raises msg) attempt remaining s ops).2.1.lastError
        = some msg := by
  intro remaining
  induction remaining with
  | zero => intro _ _ _ h; omega
  | succ n ih =>
    intro attempt s ops _
    rcases Nat.eq_zero_or_pos n with hn | hn
    · subst hn
      simp [startAttemptLoop]
    · simp only [startAttemptLoop]
      obtain ⟨h1, h2, h3⟩ := ih (attempt + 1)
        { s with recognizerSet := true, pushStreamSet := true,
                 retryCount := s.retryCount + 1, lastError := some msg }
        (ops ++ [ResOp.setupAttempt, ResOp.createRecognizer]
             ++ (if n == 0 then [] else [ResOp.sleepRetry])) hn
      refine ⟨h1, ?_, h3⟩
      rw [h2]
      show s.retryCount + 1 + n = s.retryCount + (n + 1)
      omega

/-- C2, counterexample.  The second of two consecutive stop calls returns
the `NotRecording` failure — but it is not free of side effects on the
session's resources: the guaranteed-cleanup block runs again on the
retained handles, re-issuing the recognizer stop, callback disconnect and
push-stream close operations. -/
theorem c2_stop_side_effects_counterexample :
    (stop_recording (stop_recording sRec).2.1).1.success = false ∧
    (stop_recording (stop_recording sRec).2.1).2.2
      = [ResOp.stopRecognition, ResOp.disconnectCallbacks, ResOp.closePushStream] ∧
    (stop_recording (stop_recording sRec).2.1).2.2 ≠ [] := by
  decide

/-- C2, amended.  Stop on a non-recording session returns the failure
`(false, "Not currently recording", none)` and leaves every state field
unchanged except forcing `isActive` to `false`; the call is therefore a
no-op on state *values* for a session that has already been stopped.  It
is not free of resource side effects, however: the `finally` block still
runs `cleanup_streaming_resources`, and its trace is empty exactly when
the session holds neither a recognizer nor a push-stream handle. -/
theorem c2_stop_not_recording_amended (s : StreamState) (h : s.isRecording = false) :
    (stop_recording s).1 = ⟨false, "Not currently recording", none⟩ ∧
    (stop_recording s).2.1 = { s with isActive := false } ∧
    ((stop_recording s).2.2 = [] ↔ s.recognizerSet = false ∧ s.pushStreamSet = false) := by
  cases hr : s.recognizerSet <;> cases hp : s.pushStreamSet <;>
    simp [stop_recording, cleanup_streaming_resources, h, hr, hp]

/-- C2, witness: the amended theorem evaluated at the state left behind by
a first stop of the recording session `sRec`. -/
theorem c2_stop_not_recording_amended_witness :
    (stop_recording (stop_recording sRec).2.1).1
      = ⟨false, "Not currently recording", none⟩ ∧
    (stop_recording (stop_recording sRec).2.1).2.1
      = { (stop_recording sRec).2.1 with isActive := false } ∧
    ((stop_recording (stop_recording sRec).2.1).2.2 = [] ↔
      (stop_recording sRec).2.1.recognizerSet = false ∧
      (stop_recording sRec).2.1.pushStreamSet = false) :=
  c2_stop_not_recording_amended ((stop_recording sRec).2.1) (by decide)

/-- C4, counterexample.  When every setup attempt fails (setup returns
`False`, the simulated-setup-failure scenario), `start_recording` does
return failure and does perform `maxRetries + 1 = 4` setup attempts — but
`retryCount` ends at `0`, not `3`: the counter is only incremented in the
`except` branch, which setup's internal failure never reaches. -/
theorem c4_retry_count_counterexample :
    (start_recording (fun _ => SetupOutcome.returnsFalse "boom") sIdle).1.1 = false ∧
    ((start_recording (fun _ => SetupOutcome.returnsFalse "boom") sIdle).2.2.count
        ResOp.setupAttempt) = 4 ∧
    (start_recording (fun _ => SetupOutcome.returnsFalse "boom") sIdle).2.1.retryCount = 0 ∧
    (start_recording (fun _ => SetupOutcome.returnsFalse "boom") sIdle).2.1.retryCount ≠ 3 := by
  decide

/-- C4, amended.  `start_recording` runs up to `maxRetries + 1` setup
attempts and never raises (it is a total function of the environment).
When every attempt fails because setup returns `False`, it returns failure
after exactly `maxRetries + 1` setup attempts with `lastError` recorded
but `retryCount = 0` and no inter-attempt delay (the trace is exactly the
setup attempts); `retryCount` is incremented only when an attempt raises
after setup succeeded, ending at `maxRetries + 1` when every attempt
raises. -/
theorem c4_start_retry_amended (s : StreamState) (msg : String) :
    ((start_recording (fun _ => SetupOutcome.returnsFalse msg) s).1.1 = false ∧
     (start_recording (fun _ => SetupOutcome.returnsFalse msg) s).2.1
       = { s with retryCount := 0, lastError := some msg } ∧
     (start_recording (fun _ => SetupOutcome.returnsFalse msg) s).2.2
       = List.replicate (s.maxRetries + 1) ResOp.setupAttempt) ∧
    ((start_recording (fun _ => SetupOutcome.raises msg) s).1.1 = false ∧
     (start_recording (fun _ => SetupOutcome.raises msg) s).2.1.retryCount
       = s.maxRetries + 1) := by
  constructor
  · have h := startAttemptLoop_returnsFalse msg (s.maxRetries + 1) 0
      { s with retryCount := 0 } [] (Nat.succ_pos _)
    simp only [start_recording]
    rw [h]
    exact ⟨rfl, rfl, by simp⟩
  · obtain ⟨h1, h2, -⟩ := startAttemptLoop_raises msg (s.maxRetries + 1) 0
      { s with retryCount := 0 } [] (Nat.succ_pos _)
    simp only [start_recording]
    refine ⟨h1, ?_⟩
    rw [h2]
    show 0 + (s.maxRetries + 1) = s.maxRetries + 1
    omega

/-- C6.  After any stop call — on a recording session or not, whatever the
consolidation outcome — the session's `isActive` flag is `false`, and the
guaranteed-cleanup block has issued the recognizer stop and callback
disconnects whenever a recognizer handle was held and the push-stream
close whenever a push stream was held (the SDK teardown calls are modelled
as non-raising).  Moreover a recognizer handle is never obtained outside
`start_recording`: every successful start's trace contains a fresh
recognizer creation, so no handle is reused across recordings without
going through start again. -/
theorem c6_stop_cleanup :
    (∀ s : StreamState,
      (stop_recording s).2.1.isActive = false ∧
      (s.recognizerSet = true →
        ResOp.stopRecognition ∈ (stop_recording s).2.2 ∧
        ResOp.disconnectCallbacks ∈ (stop_recording s).2.2) ∧
      (s.pushStreamSet = true → ResOp.closePushStream ∈ (stop_recording s).2.2)) ∧
    (∀ (env : Nat → SetupOutcome) (s : StreamState),
      (start_recording env s).1.1 = true →
        ResOp.createRecognizer ∈ (start_recording env s).2.2) := by
  constructor
  · intro s
    cases hrec : s.isRecording with
    | false =>
      refine ⟨by simp [stop_recording, hrec], ?_, ?_⟩
      · intro hr
        simp [stop_recording, hrec, cleanup_streaming_resources, hr]
      · intro hp
        simp [stop_recording, hrec, cleanup_streaming_resources, hp]
    | true =>
      obtain ⟨hr1, hp1, -, -⟩ := flush_audio_buffer_fields s
      refine ⟨by simp [stop_recording, hrec], ?_, ?_⟩
      · intro hr
        simp [stop_recording, hrec, cleanup_streaming_resources, hr1, hr]
      · intro hp
        simp [stop_recording, hrec, cleanup_streaming_resources, hp1, hp]
  · intro env s h
    simp only [start_recording] at h ⊢
    exact startAttemptLoop_success_mem env (s.maxRetries + 1) 0 _ _ h

/-- C6, witness: cleanup operations of a stop on the live session `sRec`,
and the fresh recognizer creation of a successful start from idle. -/
theorem c6_stop_cleanup_witness :
    ResOp.disconnectCallbacks ∈ (stop_recording sRec).2.2 ∧
    ResOp.createRecognizer ∈ (start_recording (fun _ => SetupOutcome.ok) sIdle).2.2 :=
  ⟨((c6_stop_cleanup.1 sRec).2.1 (by decide)).2,
   c6_stop_cleanup.2 (fun _ => SetupOutcome.ok) sIdle (by decide)⟩

/-- C8.  The claim says a start on an already-recording session is a no-op
failure, but `start_recording` contains no already-recording check at all:
on a session that is recording (with one consumer thread running and an
accumulated fragment), a start whose setup succeeds returns *success*,
resets the utterance-scoped fields (the fragment list becomes empty) and
spawns a second consumer thread. -/
theorem c8_double_start_bug :
    sRecWithFragment.isRecording = true ∧
    (start_recording (fun _ => SetupOutcome.ok) sRecWithFragment).1.1 = true ∧
    (start_recording (fun _ => SetupOutcome.ok) sRecWithFragment).1.2
      = "Recording started..." ∧
    (start_recording (fun _ => SetupOutcome.ok) sRecWithFragment).2.1.fragments = [] ∧
    (start_recording (fun _ => SetupOutcome.ok) sRecWithFragment).2.1.consumerThreads
      = sRecWithFragment.consumerThreads + 1 ∧
    ResOp.spawnConsumer ∈ (start_recording (fun _ => SetupOutcome.ok) sRecWithFragment).2.2 := by
  decide

/-- C7, witness: the amended theorem evaluated at `cFrag` with no trailing
fragments. -/
theorem c7_consolidation_effects_amended_witness :
    ∃ nb', (consolidate_results [cFrag]).2 = { cFrag with nbest := nb' } :: ([] : List Fragment) ∧
      (cFrag.nbest = none → nb' = none) ∧
      (cFrag.nbest = some [] → nb' = some []) ∧
      (∀ e es, cFrag.nbest = some (e :: es) →
        nb' = some ({ e with
          words := some (consolidationWords [cFrag]),
          lexical := some (String.intercalate " " (consolidationParts [cFrag])),
          display := some (String.intercalate " " (consolidationParts [cFrag])),
          itn := some (String.intercalate " " (consolidationParts [cFrag])),
          maskedITN := some (String.intercalate " " (consolidationParts [cFrag]))
        } :: es)) :=
  c7_consolidation_effects_amended cFrag []

/-- C5, counterexample.  A zero-length sample array reaches the silence
gate (`np.max` over an empty array) outside every `try` block: `receive`
raises to the caller instead of dropping the frame. -/
theorem c5_empty_frame_counterexample :
    receive rsConst true 0 16000 [] =
      RecvResult.raised "ValueError: zero-size array to reduction operation maximum" := by
  decide

/-- C5, amended.  For every frame with a non-empty sample array and a
non-zero sample rate, `receive` never raises: every failure mode drops the
frame locally (no active session, queue pressure, silence, degenerate
resampling).  A zero-length sample array raises `ValueError` from the
unguarded silence check, and a zero sample rate raises
`ZeroDivisionError` from the resampling arithmetic. -/
theorem c5_receive_no_raise_amended (resampleImpl : List ℚ → Nat → List ℚ)
    (hasActive : Bool) (queueSize : Nat) (sr : Int) (samples : List ℚ)
    (hne : samples ≠ []) (hsr : sr ≠ 0) :
    ∀ msg, receive resampleImpl hasActive queueSize sr samples ≠ RecvResult.raised msg := by
  intro msg
  unfold receive
  split_ifs <;> try simp_all [List.isEmpty_iff]
  split <;> simp

/-- C5, witness: the amended theorem on a one-sample frame at the native
rate. -/
theorem c5_receive_no_raise_amended_witness :
    receive rsConst true 0 16000 [(1 : ℚ)]
      ≠ RecvResult.raised "ValueError: zero-size array to reduction operation maximum" :=
  c5_receive_no_raise_amended rsConst true 0 16000 [(1 : ℚ)] (by decide) (by decide)
    "ValueError: zero-size array to reduction operation maximum"

/-- C9, counterexample.  The silence gate uses a strict comparison
(`np.max(np.abs(x)) > threshold`), so a frame whose peak amplitude is
*exactly* `0.01` is dropped as silence, though the claim requires every
frame with peak `≥ 0.01` (and valid resampling, empty queue) to be
enqueued. -/
theorem c9_threshold_counterexample :
    peakAmp [(1 : ℚ)/100] = 1/100 ∧
    receive rsConst true 0 16000 [(1 : ℚ)/100] = RecvResult.droppedSilence := by
  have hpk : peakAmp [(1 : ℚ)/100] = 1/100 := by
    norm_num [peakAmp]
  refine ⟨hpk, ?_⟩
  have hsp : has_speech [(100 : ℚ)⁻¹] ((100 : ℚ)⁻¹) = false := by
    have hpk2 : peakAmp [(100 : ℚ)⁻¹] = (100 : ℚ)⁻¹ := by norm_num [peakAmp]
    simp only [has_speech, hpk2, decide_eq_false_iff_not]
    exact lt_irrefl _
  unfold receive
  simp [hsp]

/-- C9, amended.  A frame whose peak amplitude is below *or equal to* the
`0.01` threshold is never enqueued; a frame whose peak is strictly above
the threshold, with the queue at or below the drop threshold, is enqueued
— as-is at the native 16 kHz rate, and as the resampler's output when the
rate differs and the computed target length is positive. -/
theorem c9_silence_gate_amended (resampleImpl : List ℚ → Nat → List ℚ)
    (queueSize : Nat) (sr : Int) (samples : List ℚ) :
    (peakAmp samples ≤ 1/100 →
      ∀ out, receive resampleImpl true queueSize sr samples ≠ RecvResult.enqueued out) ∧
    (1/100 < peakAmp samples → queueSize ≤ 45 → sr = 16000 →
      receive resampleImpl true queueSize sr samples = RecvResult.enqueued samples) ∧
    (1/100 < peakAmp samples → queueSize ≤ 45 → sr ≠ 16000 → sr ≠ 0 →
      0 < resampleTargetLength samples.length sr →
      receive resampleImpl true queueSize sr samples
        = RecvResult.enqueued
            (resampleImpl samples (resampleTargetLength samples.length sr).toNat)) := by
  refine ⟨?_, ?_, ?_⟩
  · intro hle out
    have hsp : has_speech samples (1/100) = false := by
      simp only [has_speech, decide_eq_false_iff_not]
      exact not_lt.mpr hle
    unfold receive
    split_ifs <;> simp_all
  · intro h1 h2 h3
    subst h3
    have hne : samples.isEmpty = false := by
      cases samples with
      | nil => norm_num [peakAmp] at h1
      | cons a l => rfl
    have hsp : has_speech samples ((100 : ℚ)⁻¹) = true := by
      simp only [has_speech, decide_eq_true_eq]
      rw [← one_div]
      exact h1
    unfold receive
    simp [hne, hsp, not_lt.mpr h2]
  · intro h1 h2 h3 h4 h5
    have hne : samples.isEmpty = false := by
      cases samples with
      | nil => norm_num [peakAmp] at h1
      | cons a l => rfl
    have hsp : has_speech samples ((100 : ℚ)⁻¹) = true := by
      simp only [has_speech, decide_eq_true_eq]
      rw [← one_div]
      exact h1
    unfold receive
    simp [hne, hsp, not_lt.mpr h2, h3, h4, h5]

/-- C9, witness: a loud one-sample frame at the native rate is enqueued
unchanged (second clause of the amended theorem). -/
theorem c9_silence_gate_amended_witness :
    receive rsConst true 0 16000 [(1 : ℚ)] = RecvResult.enqueued [(1 : ℚ)] :=
  (c9_silence_gate_amended rsConst 0 16000 [(1 : ℚ)]).2.1 (by norm_num [peakAmp])
    (by norm_num) rfl

/-- Processing the audio buffer touches only the buffer, the written
stream and the counter. -/
theorem process_audio_buffer_fields (s : ConsumerState) (b : Bool) :
    (process_audio_buffer_optimized s b).queue = s.queue ∧
    (process_audio_buffer_optimized s b).batch = s.batch ∧
    (process_audio_buffer_optimized s b).isRecording = s.isRecording ∧
    (process_audio_buffer_optimized s b).drains = s.drains ∧
    (process_audio_buffer_optimized s b).accepted = s.accepted := by
  unfold process_audio_buffer_optimized
  split
  · split <;> exact ⟨rfl, rfl, rfl, rfl, rfl⟩
  · exact ⟨rfl, rfl, rfl, rfl, rfl⟩

/-- Processing the audio buffer moves samples from the buffer to the
written stream without creating, losing or reordering any. -/
theorem process_audio_buffer_trace (s : ConsumerState) (b : Bool) :
    pipelineTrace (process_audio_buffer_optimized s b) = pipelineTrace s := by
  unfold process_audio_buffer_optimized pipelineTrace
  split
  · split
    · simp
    · simp only [List.append_assoc]
      rw [← List.append_assoc (s.buffer.take targetSamples), List.take_append_drop]
  · rfl

/-- The external stop flag changes only `isRecording`. -/
theorem applyStop_fields (s : ConsumerState) (t : Tick) :
    (applyStop s t).queue = s.queue ∧ (applyStop s t).batch = s.batch ∧
    (applyStop s t).buffer = s.buffer ∧ (applyStop s t).written = s.written ∧
    (applyStop s t).drains = s.drains ∧ (applyStop s t).accepted = s.accepted := by
  unfold applyStop
  split <;> exact ⟨rfl, rfl, rfl, rfl, rfl, rfl⟩

/-- The external stop flag preserves the pipeline contents. -/
theorem applyStop_trace (s : ConsumerState) (t : Tick) :
    pipelineTrace (applyStop s t) = pipelineTrace s := by
  unfold applyStop pipelineTrace
  split <;> rfl

/-- The emergency drain increments the drain counter by exactly one and
keeps the accepted trace. -/
theorem consumeEmergencyDrain_fields (s : ConsumerState) :
    (consumeEmergencyDrain s).drains = s.drains + 1 ∧
    (consumeEmergencyDrain s).accepted = s.accepted := by
  unfold consumeEmergencyDrain
  dsimp only
  split
  · exact ⟨rfl, rfl⟩
  · exact ⟨(process_audio_buffer_fields _ _).2.2.2.1,
           (process_audio_buffer_fields _ _).2.2.2.2⟩

/-- The timeout-branch flush preserves the pipeline contents, the drain
count and the accepted trace. -/
theorem consumeTimeoutFlush_props (s : ConsumerState) :
    pipelineTrace (consumeTimeoutFlush s) = pipelineTrace s ∧
    (consumeTimeoutFlush s).drains = s.drains ∧
    (consumeTimeoutFlush s).accepted = s.accepted := by
  unfold consumeTimeoutFlush
  split
  · refine ⟨?_, (process_audio_buffer_fields _ _).2.2.2.1,
           (process_audio_buffer_fields _ _).2.2.2.2⟩
    rw [process_audio_buffer_trace]
    simp [pipelineTrace, List.append_assoc]
  · exact ⟨rfl, rfl, rfl⟩

/-- The dequeue branch preserves the drain count and the accepted
trace. -/
theorem consumeDequeue_fields (s : ConsumerState) (t : Tick) (f : List Int)
    (rest : List (List Int)) (qs : Nat) :
    (consumeDequeue s t f rest qs).drains = s.drains ∧
    (consumeDequeue s t f rest qs).accepted = s.accepted := by
  unfold consumeDequeue
  dsimp only
  split
  · exact ⟨(process_audio_buffer_fields _ _).2.2.2.1,
           (process_audio_buffer_fields _ _).2.2.2.2⟩
  · exact ⟨rfl, rfl⟩

/-- The dequeue branch preserves the pipeline contents: the dequeued
frame moves from the queue front to the batch (possibly on into the buffer
and the written stream) without loss or reordering. -/
theorem consumeDequeue_trace (s : ConsumerState) (t : Tick) (f : List Int)
    (rest : List (List Int)) (qs : Nat) (hq : s.queue = f :: rest) :
    pipelineTrace (consumeDequeue s t f rest qs) = pipelineTrace s := by
  unfold consumeDequeue
  dsimp only
  split
  · rw [process_audio_buffer_trace]
    simp [pipelineTrace, hq, List.append_assoc]
  · simp [pipelineTrace, hq, List.append_assoc]

/-- One loop iteration never decreases the drain counter. -/
theorem consumeIter_drains_le (s : ConsumerState) (t : Tick) :
    s.drains ≤ (consumeIter s t).drains := by
  simp only [consumeIter]
  split
  · exact le_refl _
  · split
    · rw [(applyStop_fields _ _).2.2.2.2.1, (consumeEmergencyDrain_fields _).1]
      exact Nat.le_succ _
    · split
      · rw [(applyStop_fields _ _).2.2.2.2.1, (consumeTimeoutFlush_props _).2.1]
      · rw [(applyStop_fields _ _).2.2.2.2.1, (consumeDequeue_fields _ _ _ _ _).1]

/-- One loop iteration extends the accepted trace by exactly this tick's
arrival samples, whatever branch runs. -/
theorem consumeIter_accepted (s : ConsumerState) (t : Tick) :
    (consumeIter s t).accepted = s.accepted ++ t.arrivals.flatten := by
  simp only [consumeIter]
  split
  · rfl
  · split
    · rw [(applyStop_fields _ _).2.2.2.2.2, (consumeEmergencyDrain_fields _).2]
    · split
      · rw [(applyStop_fields _ _).2.2.2.2.2, (consumeTimeoutFlush_props _).2.2]
      · rw [(applyStop_fields _ _).2.2.2.2.2, (consumeDequeue_fields _ _ _ _ _).2]

/-- In an iteration without an emergency drain, the pipeline contents grow
by exactly this tick's arrivals, in order: nothing is lost, duplicated or
reordered. -/
theorem consumeIter_trace (s : ConsumerState) (t : Tick)
    (h : (consumeIter s t).drains = s.drains) :
    pipelineTrace (consumeIter s t) = pipelineTrace s ++ t.arrivals.flatten := by
  have base : pipelineTrace { s with
      queue := s.queue ++ t.arrivals,
      accepted := s.accepted ++ t.arrivals.flatten }
      = pipelineTrace s ++ t.arrivals.flatten := by
    simp [pipelineTrace, List.flatten_append, List.append_assoc]
  cases htl : t.timeLimit with
  | true =>
    simp only [consumeIter, htl, if_true]
    exact base
  | false =>
    by_cases hp : 20 < (s.queue ++ t.arrivals).length
    · exfalso
      simp only [consumeIter, htl, Bool.false_eq_true, if_false, hp, if_true] at h
      rw [(applyStop_fields _ _).2.2.2.2.1, (consumeEmergencyDrain_fields _).1] at h
      dsimp only at h
      omega
    · rcases hq : s.queue ++ t.arrivals with _ | ⟨f, rest⟩
      · simp only [consumeIter, htl, Bool.false_eq_true, if_false, hq,
          List.length_nil, if_neg (by omega : ¬(20 < 0))]
        rw [applyStop_trace, (consumeTimeoutFlush_props _).1]
        rw [hq] at base
        exact base
      · rw [hq] at hp
        simp only [consumeIter, htl, Bool.false_eq_true, if_false, hq, if_neg hp]
        rw [applyStop_trace, consumeDequeue_trace _ _ _ _ _ (by exact rfl)]
        rw [hq] at base
        exact base

/-- The drain counter is monotone along a run. -/
theorem consumeLoop_drains_le (ticks : List Tick) :
    ∀ s : ConsumerState, s.drains ≤ (consumeLoop s ticks).drains := by
  induction ticks with
  | nil => intro s; exact le_refl _
  | cons t ts ih =>
    intro s
    simp only [consumeLoop]
    split
    · exact le_trans (consumeIter_drains_le s t) (ih _)
    · exact le_refl _

/-- Conservation along a drain-free run: if the pipeline contents coincide
with the accepted trace initially, they still do at loop exit. -/
theorem consumeLoop_trace (ticks : List Tick) :
    ∀ s : ConsumerState, pipelineTrace s = s.accepted →
      (consumeLoop s ticks).drains = s.drains →
      pipelineTrace (consumeLoop s ticks) = (consumeLoop s ticks).accepted := by
  induction ticks with
  | nil => intro s h _; exact h
  | cons t ts ih =>
    intro s h hd
    simp only [consumeLoop] at hd ⊢
    split at hd
    case isTrue hrec =>
      rw [if_pos hrec]
      have h1 : s.drains ≤ (consumeIter s t).drains := consumeIter_drains_le s t
      have h2 : (consumeIter s t).drains ≤ (consumeLoop (consumeIter s t) ts).drains :=
        consumeLoop_drains_le ts _
      have hiter : (consumeIter s t).drains = s.drains := by omega
      have htr : pipelineTrace (consumeIter s t) = (consumeIter s t).accepted := by
        rw [consumeIter_trace s t hiter, consumeIter_accepted s t, h]
      exact ih _ htr (by omega)
    case isFalse hrec =>
      rw [if_neg hrec]
      exact h

/-- The loop's `finally` block always leaves the batch buffer empty. -/
theorem consumeFinally_batch (s : ConsumerState) : (consumeFinally s).batch = [] := by
  unfold consumeFinally
  split
  case isTrue h => simpa using h
  case isFalse h => exact (process_audio_buffer_fields _ _).2.1

/-- The loop's `finally` block preserves the accepted trace, the drain
count and the queue. -/
theorem consumeFinally_fields (s : ConsumerState) :
    (consumeFinally s).accepted = s.accepted ∧
    (consumeFinally s).drains = s.drains ∧
    (consumeFinally s).queue = s.queue := by
  unfold consumeFinally
  split
  · exact ⟨rfl, rfl, rfl⟩
  · exact ⟨(process_audio_buffer_fields _ _).2.2.2.2,
           (process_audio_buffer_fields _ _).2.2.2.1,
           (process_audio_buffer_fields _ _).1⟩

/-- The loop's `finally` block preserves the pipeline contents. -/
theorem consumeFinally_trace (s : ConsumerState) :
    pipelineTrace (consumeFinally s) = pipelineTrace s := by
  unfold consumeFinally
  split
  · rfl
  · rw [process_audio_buffer_trace]
    simp [pipelineTrace, List.append_assoc]

/-- A force-flush always leaves the audio buffer empty: either it writes
the whole buffer, or there was nothing buffered to begin with. -/
theorem process_audio_buffer_force_buffer (s : ConsumerState) :
    (process_audio_buffer_optimized s true).buffer = [] := by
  unfold process_audio_buffer_optimized
  split
  · simp only [if_true]
  case isFalse h =>
    simp only [Bool.true_and, Bool.or_eq_true, not_or, Bool.not_eq_true,
      decide_eq_false_iff_not, Bool.not_eq_true', List.isEmpty_iff] at h
    simpa using h.2

/-- When a batch is pending at loop exit, the `finally` block force-flushes
it together with the audio buffer: nothing stays buffered. -/
theorem consumeFinally_buffer (s : ConsumerState) (h : s.batch ≠ []) :
    (consumeFinally s).buffer = [] := by
  unfold consumeFinally
  split
  case isTrue hb => exact absurd (by simpa using hb) h
  case isFalse hb => exact process_audio_buffer_force_buffer _

/-- With an empty batch at loop exit, the `finally` block does nothing at
all — in particular it does not flush a non-empty audio buffer. -/
theorem consumeFinally_id (s : ConsumerState) (h : s.batch = []) :
    consumeFinally s = s := by
  simp [consumeFinally, h]

/-- C3, counterexample.  A frame of three samples is accepted, batched and
moved into the audio buffer (too few samples for a full window, so nothing
is written); an external stop then ends the loop with an empty batch
buffer, and the `finally` block flushes nothing: the three accepted
samples never reach the push stream — they are silently discarded at
normal shutdown. -/
theorem c3_flush_counterexample :
    (consume_audio_loop c3s0 [c3tick]).accepted = [1, 2, 3] ∧
    (consume_audio_loop c3s0 [c3tick]).written = [] ∧
    (consume_audio_loop c3s0 [c3tick]).buffer = [1, 2, 3] ∧
    (consume_audio_loop c3s0 [c3tick]).isRecording = false ∧
    (consume_audio_loop c3s0 [c3tick]).written
      ≠ (consume_audio_loop c3s0 [c3tick]).accepted := by
  decide

/-- C3, amended.  In any run of the consumer loop started with fresh
buffers: (i) if no emergency drain fires, the samples written to the push
stream, followed by the samples still in the audio buffer and then those
still queued, are exactly the accepted samples in arrival order — so
writes are a FIFO-ordered prefix of the accepted stream and nothing is
duplicated or reordered (emergency drains may overtake a pending batch,
which is why they are excluded); (ii) when the batch buffer is non-empty
at loop exit, the `finally` block flushes it and the audio buffer
completely, exactly once; (iii) when the batch buffer is empty at loop
exit the `finally` block is a no-op, so samples left in the audio buffer
or the queue are not flushed by the loop. -/
theorem c3_consume_loop_amended (s : ConsumerState) (ticks : List Tick)
    (hw : s.written = []) (hb : s.batch = []) (hbuf : s.buffer = [])
    (hd : s.drains = 0) (ha : s.accepted = s.queue.flatten) :
    ((consume_audio_loop s ticks).drains = 0 →
      (consume_audio_loop s ticks).written ++ (consume_audio_loop s ticks).buffer
        ++ (consume_audio_loop s ticks).queue.flatten
        = (consume_audio_loop s ticks).accepted) ∧
    ((consumeLoop s ticks).batch ≠ [] →
      (consume_audio_loop s ticks).buffer = [] ∧
      (consume_audio_loop s ticks).written ++ (consume_audio_loop s ticks).queue.flatten
        = (consume_audio_loop s ticks).accepted
        ∨ 0 < (consume_audio_loop s ticks).drains) ∧
    ((consumeLoop s ticks).batch = [] → consume_audio_loop s ticks = consumeLoop s ticks) := by
  have htr0 : pipelineTrace s = s.accepted := by
    simp [pipelineTrace, hw, hb, hbuf, ha]
  have hmain : (consume_audio_loop s ticks).drains = 0 →
      (consume_audio_loop s ticks).written ++ (consume_audio_loop s ticks).buffer
        ++ (consume_audio_loop s ticks).queue.flatten
        = (consume_audio_loop s ticks).accepted := by
    intro h0
    unfold consume_audio_loop at h0 ⊢
    obtain ⟨hacc, hdr, hqu⟩ := consumeFinally_fields (consumeLoop s ticks)
    have hloopdr : (consumeLoop s ticks).drains = s.drains := by
      rw [hd, ← hdr]
      exact h0
    have htrL := consumeLoop_trace ticks s htr0 hloopdr
    have htrF : pipelineTrace (consumeFinally (consumeLoop s ticks))
        = (consumeFinally (consumeLoop s ticks)).accepted := by
      rw [consumeFinally_trace, htrL, hacc]
    have hbatchF := consumeFinally_batch (consumeLoop s ticks)
    unfold pipelineTrace at htrF
    rw [hbatchF] at htrF
    simpa using htrF
  refine ⟨hmain, ?_, ?_⟩
  · intro hne
    by_cases hdr0 : (consume_audio_loop s ticks).drains = 0
    · left
      have hbufF : (consume_audio_loop s ticks).buffer = [] := by
        unfold consume_audio_loop
        exact consumeFinally_buffer _ hne
      refine ⟨hbufF, ?_⟩
      have := hmain hdr0
      rw [hbufF] at this
      simpa using this
    · right
      omega
  · intro he
    unfold consume_audio_loop
    exact consumeFinally_id _ he

/-- C3, witness: the amended theorem's conservation clause evaluated on
the counterexample run (which is drain-free). -/
theorem c3_consume_loop_amended_witness :
    (consume_audio_loop c3s0 [c3tick]).written ++ (consume_audio_loop c3s0 [c3tick]).buffer
      ++ (consume_audio_loop c3s0 [c3tick]).queue.flatten
      = (consume_audio_loop c3s0 [c3tick]).accepted :=
  (c3_consume_loop_amended c3s0 [c3tick] rfl rfl rfl rfl rfl).1 (by decide)

/-- C10.  On every non-empty registry, `cleanup_old_sessions` raises
`AttributeError` out of the lock instead of evicting anything: its
selection loop reads `session.created_at`, an attribute the
`StreamingSessionState` dataclass never defines. -/
theorem c10_cleanup_created_at_bug :
    cleanup_old_sessions [("h", sessM)] 1000 3600
      = Except.error (PyError.attributeError "created_at") ∧
    (∀ registry : List (String × SessionModel), registry ≠ [] →
      ∀ currentTime maxAge : Int,
        cleanup_old_sessions registry currentTime maxAge
          = Except.error (PyError.attributeError "created_at")) := by
  constructor
  · rfl
  · intro registry hne t a
    cases registry with
    | nil => exact absurd rfl hne
    | cons p rest =>
      obtain ⟨h, s⟩ := p
      rfl

end Aurora
